import Mathlib

/-!
Verification of the filter-and-aggregation core of the Nautilus maritime
incidents dashboard (`nat_app.py`), as a shallow embedding in Lean 4.

Data frames are embedded as `List Row`; nullable pandas cells are `Option`
values (`none` stands for NaN/NaT); pandas operations used by the script are
translated operation by operation, with the comments pointing at the source
lines they come from.
-/

namespace Nautilus

/-- The fixed calendar month order used throughout the script
(lines 40, 99, 229, 236). -/
def month_order : List String :=
  ["Jan", "Feb", "Mar", "Apr", "May", "Jun",
   "Jul", "Aug", "Sep", "Oct", "Nov", "Dec"]

/-- Three-letter abbreviation of month `m` (1-12), as produced by
`pd.to_datetime(str(m), format="%m").strftime("%b")` on an integer month
(line 30 of the source). -/
def monthAbbrev (m : Nat) : String :=
  month_order.getD (m - 1) ""

/-- Split a character list on the dash separator (helper for the date
parse below). -/
def splitOnDash : List Char → List (List Char)
  | [] => [[]]
  | c :: rest =>
    let r := splitOnDash rest
    if c = '-' then [] :: r
    else
      match r with
      | h :: t => (c :: h) :: t
      | [] => [[c]]

/-- Read a nonempty all-digit character list as a natural number (helper
for the date parse below). -/
def digitsToNat (cs : List Char) : Option Nat :=
  if cs ≠ [] ∧ cs.all Char.isDigit then
    some (cs.foldl (fun acc c => acc * 10 + (c.toNat - 48)) 0)
  else none

/-- Model of `pd.to_datetime(s, errors="coerce")` applied to one raw cell
(line 22): a permissive calendar-date parse that yields `none` (NaT) on
anything unparseable instead of raising.  Dates are modelled in ISO
`YYYY-MM-DD` form, giving `(year, month, day)`. -/
def to_datetime (s : String) : Option (Nat × Nat × Nat) :=
  match splitOnDash s.data with
  | [y, m, d] =>
    match digitsToNat y, digitsToNat m, digitsToNat d with
    | some yn, some mn, some dn =>
      if 1 ≤ mn ∧ mn ≤ 12 ∧ 1 ≤ dn ∧ dn ≤ 31 then some (yn, mn, dn) else none
    | _, _, _ => none
  | _ => none

/-- One raw CSV record of `maritime_incidents_realistic.csv` (line 21),
before the derived columns are added. -/
structure CsvRow where
  Date : String
  Latitude : Option Int
  Longitude : Option Int
  Country : Option String
  Vessel_Type : Option String
  Incident_Type : Option String
  Casualties : Option Int
  Cargo_Loss : Option String
deriving DecidableEq, Repr

/-- One row of the loaded table, with the derived columns of
`load_data` (lines 22-30) and the `Year_Month` column added later by the
timeline tab (line 103, initially absent). -/
structure Row where
  Date : Option (Nat × Nat × Nat)
  Year : Option Int
  Month : Option Nat
  Day : Option Nat
  Month_Name : Option String
  Country : Option String
  Vessel_Type : Option String
  Incident_Type : Option String
  Casualties : Option Int
  Cargo_Loss : Option String
  Cargo_Loss_Flag : Option Int
  Severity : Option String
  Latitude : Option Int
  Longitude : Option Int
  Year_Month : Option String := none
deriving DecidableEq, Repr

/-- Model of `df["Cargo_Loss"].map({"Yes":1, "No":0})` (line 26): a pandas
dict-`map` sends every value outside the dict's keys - nulls included - to
NaN, i.e. `none`, not to 0. -/
def cargo_loss_flag (c : Option String) : Option Int :=
  match c with
  | some s => if s = "Yes" then some 1 else if s = "No" then some 0 else none
  | none => none

/-- Model of
`pd.cut(df["Casualties"].fillna(0), bins=[-1,10,50,1000], labels=["Low","Medium","High"])`
(lines 27-29): `fillna(0)` maps `none` to 0, and `pd.cut` with
right-closed bins classifies `(-1,10]` as Low, `(10,50]` as Medium and
`(50,1000]` as High, leaving anything outside `(-1,1000]` as NaN. -/
def severity (c : Option Int) : Option String :=
  let v := c.getD 0
  if -1 < v ∧ v ≤ 10 then some "Low"
  else if 10 < v ∧ v ≤ 50 then some "Medium"
  else if 50 < v ∧ v ≤ 1000 then some "High"
  else none

/-- The per-row content of the loaded table: raw columns carried over and
the derived columns of lines 22-30.  `Year`, `Month`, `Day` and
`Month_Name` are null exactly when the date did not parse. -/
def loadRow (r : CsvRow) : Row :=
  let d := to_datetime r.Date
  { Date := d
    Year := d.map (fun x => (x.1 : Int))
    Month := d.map (fun x => x.2.1)
    Day := d.map (fun x => x.2.2)
    Month_Name := d.map (fun x => monthAbbrev x.2.1)
    Country := r.Country
    Vessel_Type := r.Vessel_Type
    Incident_Type := r.Incident_Type
    Casualties := r.Casualties
    Cargo_Loss := r.Cargo_Loss
    Cargo_Loss_Flag := cargo_loss_flag r.Cargo_Loss
    Severity := severity r.Casualties
    Latitude := r.Latitude
    Longitude := r.Longitude
    Year_Month := none }

/-- Model of line 30,
`df["Month"].apply(lambda x: pd.to_datetime(str(x), format="%m").strftime("%b"))`,
applied to the whole `Month` column.  When every month is present the
column has integer dtype, `str(x)` is a bare integer, and each entry maps
to its abbreviation.  When any month is missing the column has float
dtype, so `str(x)` is either `"nan"` (which `pd.to_datetime` turns into
NaT, whose `strftime` raises `ValueError: NaTType does not support
strftime`) or a float rendering like `"6.0"` (which does not match the
format `"%m"` and raises); either way the `apply` raises and aborts the
load. -/
def month_name_apply (months : List (Option Nat)) : Except String (List String) :=
  if months.all (fun m => m.isSome) then
    Except.ok (months.map (fun m => monthAbbrev (m.getD 1)))
  else
    Except.error "NaTType does not support strftime"

/-- Model of `load_data` (lines 20-31): parse dates permissively, derive
`Year`/`Month`/`Day`, `Cargo_Loss_Flag`, `Severity` and `Month_Name`.
The `Month_Name` derivation is the one step that can raise (see
`month_name_apply`); the result is therefore an `Except`. -/
def load_data (csv : List CsvRow) : Except String (List Row) :=
  match month_name_apply (csv.map (fun r => (to_datetime r.Date).map (fun x => x.2.1))) with
  | Except.error e => Except.error e
  | Except.ok _ => Except.ok (csv.map loadRow)

/-- The sidebar state (lines 39-49): five multiselects and the casualty
range slider. -/
structure Selection where
  years : List Int
  months : List String
  countries : List String
  vessels : List String
  incidents : List String
  casLo : Int
  casHi : Int
deriving DecidableEq, Repr

/-- Model of `column.isin(values)` on one cell (lines 52-56): a null cell
is never a member of the selected values (pandas NaN compares unequal to
every selected value). -/
def optMem {α : Type} [BEq α] (x : Option α) (l : List α) : Bool :=
  match x with
  | some v => l.contains v
  | none => false

/-- Model of `(column >= lo) & (column <= hi)` on one cell (line 57):
pandas comparisons with NaN are `False` on both sides, so a null cell
never satisfies the range. -/
def optInRange (x : Option Int) (lo hi : Int) : Bool :=
  match x with
  | some v => lo ≤ v && v ≤ hi
  | none => false

/-- Model of the filter pipeline (lines 51-57): `filtered = data.copy()`,
then one conditional boolean-mask step per non-empty multiselect
(`if years: filtered = filtered[filtered["Year"].isin(years)]`, etc.),
then the always-applied casualty range mask. -/
def apply_filters (t : List Row) (s : Selection) : List Row :=
  let f := t
  let f := if s.years.isEmpty then f else f.filter (fun r => optMem r.Year s.years)
  let f := if s.months.isEmpty then f else f.filter (fun r => optMem r.Month_Name s.months)
  let f := if s.countries.isEmpty then f else f.filter (fun r => optMem r.Country s.countries)
  let f := if s.vessels.isEmpty then f else f.filter (fun r => optMem r.Vessel_Type s.vessels)
  let f := if s.incidents.isEmpty then f else f.filter (fun r => optMem r.Incident_Type s.incidents)
  f.filter (fun r => optInRange r.Casualties s.casLo s.casHi)

/-- The conjunction of the six per-row predicates, written the way the
source applies them (empty multiselect short-circuits to `true`). -/
def passes (s : Selection) (r : Row) : Bool :=
  (s.years.isEmpty || optMem r.Year s.years)
  && (s.months.isEmpty || optMem r.Month_Name s.months)
  && (s.countries.isEmpty || optMem r.Country s.countries)
  && (s.vessels.isEmpty || optMem r.Vessel_Type s.vessels)
  && (s.incidents.isEmpty || optMem r.Incident_Type s.incidents)
  && optInRange r.Casualties s.casLo s.casHi

/-- Spec-side reading of a categorical clause: a non-null cell passes iff
its value is a member of the selection, and a null cell never passes. -/
def memberOfSelection {α : Type} [DecidableEq α] (x : Option α) (l : List α) : Bool :=
  match x with
  | some v => decide (v ∈ l)
  | none => false

/-- Spec-side reading of the casualty clause: a non-null count passes iff
it lies in the inclusive `[lo, hi]` interval, and a null count never
passes. -/
def inClosedRange (x : Option Int) (lo hi : Int) : Bool :=
  match x with
  | some c => decide (lo ≤ c ∧ c ≤ hi)
  | none => false

/-- The per-row predicate written the way the specification describes it:
an empty categorical selection imposes no restriction, a non-empty one
passes exactly the rows whose (non-null) value is a member of the
selection, a null value never passes a non-empty selection, the casualty
bound is inclusive and always active, and the six clauses combine by
logical AND. -/
def passes_spec (s : Selection) (r : Row) : Bool :=
  (decide (s.years = []) || memberOfSelection r.Year s.years)
  && (decide (s.months = []) || memberOfSelection r.Month_Name s.months)
  && (decide (s.countries = []) || memberOfSelection r.Country s.countries)
  && (decide (s.vessels = []) || memberOfSelection r.Vessel_Type s.vessels)
  && (decide (s.incidents = []) || memberOfSelection r.Incident_Type s.incidents)
  && inClosedRange r.Casualties s.casLo s.casHi

/-- The sidebar's default selection (lines 39-49): every multiselect starts
empty and the casualty slider's default value is the literal pair
`(0, 50)` passed at line 49. -/
def default_selection : Selection :=
  { years := [], months := [], countries := [], vessels := [],
    incidents := [], casLo := 0, casHi := 50 }

/-- Model of `data["Casualties"].min()` (line 47): pandas `min` skips nulls. -/
def observed_cas_min (t : List Row) : Option Int :=
  (t.filterMap Row.Casualties).min?

/-- Model of `data["Casualties"].max()` (line 48): pandas `max` skips nulls. -/
def observed_cas_max (t : List Row) : Option Int :=
  (t.filterMap Row.Casualties).max?

lemma isEmpty_eq_decide {α : Type} [DecidableEq α] (l : List α) :
    l.isEmpty = decide (l = []) := by
  cases l <;> simp

lemma optMem_eq_memberOfSelection {α : Type} [DecidableEq α] (x : Option α) (l : List α) :
    optMem x l = memberOfSelection x l := by
  cases x with
  | none => rfl
  | some v => simp [optMem, memberOfSelection, List.contains]

lemma optInRange_eq_inClosedRange (x : Option Int) (lo hi : Int) :
    optInRange x lo hi = inClosedRange x lo hi := by
  cases x <;> simp [optInRange, inClosedRange]

lemma passes_eq_passes_spec (s : Selection) (r : Row) :
    passes s r = passes_spec s r := by
  simp only [passes, passes_spec, optMem_eq_memberOfSelection,
    optInRange_eq_inClosedRange, isEmpty_eq_decide]

lemma ite_filter_eq (b : Bool) (p : Row → Bool) (t : List Row) :
    (if b = true then t else t.filter p) = t.filter (fun r => b || p r) := by
  cases b <;> simp

/-- First-occurrence deduplication, as performed by pandas
`Series.unique()` and by the key discovery of `groupby`/`value_counts`
(hash-table insertion order). -/
def uniqueFirst {α : Type} [BEq α] (l : List α) : List α :=
  l.foldl (fun acc a => if acc.contains a then acc else acc ++ [a]) []

/-- Insert into a sorted list, keeping the new element before the first
entry it relates to (helper for the stable insertion sort below). -/
def insertLe {α : Type} (le : α → α → Bool) (a : α) : List α → List α
  | [] => [a]
  | b :: l => if le a b then a :: b :: l else b :: insertLe le a l

/-- Stable insertion sort by the boolean relation `le`; models the sorted
outputs of pandas `value_counts` (count-descending, ties in first-seen
order) and `groupby` (key-ascending). -/
def sortLe {α : Type} (le : α → α → Bool) : List α → List α
  | [] => []
  | a :: l => insertLe le a (sortLe le l)

/-- The map tab's marker list (lines 84-89): one entry per filtered row,
keeping its coordinates and the color derived from `Severity` at line 88
(High is red, Medium orange, anything else - Low or null - green). -/
def location_listing (t : List Row) : List ((Option Int × Option Int) × String) :=
  t.map (fun r => ((r.Latitude, r.Longitude),
    if r.Severity == some "High" then "red"
    else if r.Severity == some "Medium" then "orange"
    else "green"))

/-- The composite animation key of line 103:
`filtered["Year"].astype(str) + "-" + filtered["Month_Name"].astype(str)`;
`astype(str)` renders a null cell as the string "nan". -/
def year_month_key (r : Row) : String :=
  (match r.Year with | some y => toString y | none => "nan")
    ++ "-"
    ++ (match r.Month_Name with | some m => m | none => "nan")

/-- The timeline tab's temporal series (lines 103-114): the filtered rows
grouped by their `Year_Month` animation frame, one frame per distinct key
in order of first appearance. -/
def temporal_series (t : List Row) : List (String × List Row) :=
  (uniqueFirst (t.map year_month_key)).map
    (fun k => (k, t.filter (fun r => year_month_key r == k)))

/-- The Sankey tab's flow aggregation (lines 136-141):
`groupby(["Incident_Type","Vessel_Type"]).size()` (null keys dropped,
keys sorted ascending, only observed pairs kept) together with the
deduplicated source and target label lists taken from `unique()` (which
keeps nulls). -/
def sankey_data (t : List Row) :
    List ((String × String) × Nat) × List (Option String) × List (Option String) :=
  let pairs := t.filterMap (fun r =>
    match r.Incident_Type, r.Vessel_Type with
    | some i, some v => some (i, v)
    | _, _ => none)
  let keys := sortLe
    (fun a b => !(decide (b.1 < a.1) || (decide (a.1 = b.1) && decide (b.2 < a.2))))
    (uniqueFirst pairs)
  (keys.map (fun k => (k, (pairs.filter (fun p => p == k)).length)),
   uniqueFirst (t.map Row.Incident_Type),
   uniqueFirst (t.map Row.Vessel_Type))

/-- Model of `filtered["Country"].value_counts()` (line 154): counts of the
non-null countries, sorted by count descending with ties kept in
first-appearance order. -/
def country_value_counts (t : List Row) : List (String × Nat) :=
  sortLe (fun a b => decide (b.2 ≤ a.2))
    ((uniqueFirst (t.filterMap Row.Country)).map
      (fun c => (c, (t.filter (fun r => r.Country == some c)).length)))

/-- Model of `value_counts().nlargest(5).index` (line 154): the up-to-5 most
frequent countries. -/
def top_countries (t : List Row) : List String :=
  ((country_value_counts t).take 5).map Prod.fst

/-- The radar tab's per-country summary (lines 154-160): restrict to the
top countries, then `groupby("Country")` (keys ascending, null keys
impossible after the restriction) aggregating the casualty sum (nulls
skipped), the cargo-loss-flag sum (nulls skipped) and the
`Incident_Type` count (pandas `count` counts non-null cells). -/
def radar_data (t : List Row) : List (String × Int × Int × Nat) :=
  let sel := t.filter (fun r => optMem r.Country (top_countries t))
  let keys := sortLe (fun a b => !decide (b < a)) (uniqueFirst (sel.filterMap Row.Country))
  keys.map (fun c =>
    (c,
     ((sel.filter (fun r => r.Country == some c)).map (fun r => r.Casualties.getD 0)).sum,
     ((sel.filter (fun r => r.Country == some c)).map (fun r => r.Cargo_Loss_Flag.getD 0)).sum,
     (sel.filter (fun r => r.Country == some c)).countP (fun r => r.Incident_Type.isSome)))

/-- Model of `filtered["Severity"].value_counts()` (line 213) on the categorical
`Severity` column: one count per category - `pd.cut`'s categories
`Low`, `Medium`, `High` - zero included, nulls dropped.  (The
count-descending order pandas reports is irrelevant here because the
result is immediately reindexed, so the category order is kept.) -/
def severity_value_counts (t : List Row) : List (String × Nat) :=
  ["Low", "Medium", "High"].map
    (fun c => (c, (t.filter (fun r => r.Severity == some c)).length))

/-- Model of `Series.reindex(labels)` without a fill value (line 213): label lookup
in the indexed counts, yielding null for a label that is absent. -/
def reindexCounts (counts : List (String × Nat)) (labels : List String) :
    List (String × Option Nat) :=
  labels.map (fun l => (l, (counts.find? (fun p => p.1 == l)).map Prod.snd))

/-- The funnel tab's severity distribution (lines 213-214):
`value_counts().reindex(["High","Medium","Low"])`. -/
def funnel_data (t : List Row) : List (String × Option Nat) :=
  reindexCounts (severity_value_counts t) ["High", "Medium", "Low"]

/-- Model of `groupby("Month_Name").size()` (line 228) before the reindex: one
count per month name present in the filtered table (null keys dropped). -/
def month_sizes (t : List Row) : List (String × Nat) :=
  (uniqueFirst (t.filterMap Row.Month_Name)).map
    (fun m => (m, (t.filter (fun r => r.Month_Name == some m)).length))

/-- The monthly incident counts (lines 228-230):
`groupby("Month_Name").size().reindex(month_order, fill_value=0)` -
twelve entries in calendar order, zero-filled. -/
def month_count (t : List Row) : List (String × Nat) :=
  month_order.map (fun m =>
    (m, (((month_sizes t).find? (fun p => p.1 == m)).map Prod.snd).getD 0))

/-- Model of `groupby("Month_Name")["Casualties"].sum()` (line 235) before the
reindex: one casualty sum per month name present (null keys dropped,
null casualties skipped by `sum`). -/
def month_sums (t : List Row) : List (String × Int) :=
  (uniqueFirst (t.filterMap Row.Month_Name)).map
    (fun m => (m, ((t.filter (fun r => r.Month_Name == some m)).map
      (fun r => r.Casualties.getD 0)).sum))

/-- The monthly casualty totals (lines 235-237):
`groupby("Month_Name")["Casualties"].sum().reindex(month_order, fill_value=0)`. -/
def month_casualties (t : List Row) : List (String × Int) :=
  month_order.map (fun m =>
    (m, (((month_sums t).find? (fun p => p.1 == m)).map Prod.snd).getD 0))

/-- A snapshot of the script's frame heap: the allocated data frames, and
which of them the variables `data` (line 33) and `filtered` (lines 51-57)
currently point to.  Frame aliasing and in-place column writes are
explicit, so a mutation of the cached source table would be visible as a
change of the frame `dataRef` points to. -/
structure PdState where
  frames : List (List Row)
  dataRef : Nat
  filteredRef : Nat
deriving Repr

/-- Contents of the frame at heap index `i`. -/
def frameAt (st : PdState) (i : Nat) : List Row :=
  st.frames.getD i []

/-- Line 51, `filtered = data.copy()`: `copy()` allocates a fresh frame
with the same rows and `filtered` is bound to it. -/
def copyToFiltered (st : PdState) : PdState :=
  { frames := st.frames ++ [frameAt st st.dataRef]
    dataRef := st.dataRef
    filteredRef := st.frames.length }

/-- One mask step `filtered = filtered[mask]` (lines 52-57): pandas
boolean-mask indexing allocates a new frame holding the passing rows in
their original order, and `filtered` is rebound to it. -/
def maskFiltered (st : PdState) (p : Row → Bool) : PdState :=
  { frames := st.frames ++ [(frameAt st st.filteredRef).filter p]
    dataRef := st.dataRef
    filteredRef := st.frames.length }

/-- A mask step guarded by a truthiness test, as in
`if years: filtered = filtered[...]` (lines 52-56). -/
def condMaskFiltered (st : PdState) (active : Bool) (p : Row → Bool) : PdState :=
  if active then maskFiltered st p else st

/-- A column assignment `filtered[col] = ...` (lines 100 and 103): the
write happens in place on the frame `filtered` points to - no new frame
is allocated and the variable is not rebound. -/
def setColFiltered (st : PdState) (f : Row → Row) : PdState :=
  { st with frames := st.frames.set st.filteredRef ((frameAt st st.filteredRef).map f) }

/-- Initial heap right after `data = load_data()` (line 33): a single
frame holding the loaded table. -/
def init_state (data : List Row) : PdState :=
  { frames := [data], dataRef := 0, filteredRef := 0 }

/-- The whole filter pipeline of lines 51-57 acting on the heap. -/
def script_filter (st : PdState) (s : Selection) : PdState :=
  let st := copyToFiltered st
  let st := condMaskFiltered st (!s.years.isEmpty) (fun r => optMem r.Year s.years)
  let st := condMaskFiltered st (!s.months.isEmpty) (fun r => optMem r.Month_Name s.months)
  let st := condMaskFiltered st (!s.countries.isEmpty) (fun r => optMem r.Country s.countries)
  let st := condMaskFiltered st (!s.vessels.isEmpty) (fun r => optMem r.Vessel_Type s.vessels)
  let st := condMaskFiltered st (!s.incidents.isEmpty) (fun r => optMem r.Incident_Type s.incidents)
  maskFiltered st (fun r => optInRange r.Casualties s.casLo s.casHi)

/-- Line 100: `filtered["Month_Name"] = pd.Categorical(filtered["Month_Name"],
categories=month_order, ordered=True)` - a value outside the declared
categories becomes null, every other value is kept. -/
def month_cat_assign (r : Row) : Row :=
  { r with Month_Name := r.Month_Name.bind (fun m => if month_order.contains m then some m else none) }

/-- Line 103: `filtered["Year_Month"] = filtered["Year"].astype(str) + "-" +
filtered["Month_Name"].astype(str)`, evaluated after the line-100
conversion. -/
def year_month_assign (r : Row) : Row :=
  { r with Year_Month := some (year_month_key r) }

/-- The timeline tab's two column writes (lines 97-103), which only run
when the filtered table is non-empty; they are the only writes the script
performs after the load. -/
def script_tab2 (st : PdState) : PdState :=
  if frameAt st st.filteredRef = [] then st
  else setColFiltered (setColFiltered st month_cat_assign) year_month_assign

/-- One full reactive run of the script after the load: filter pipeline,
then the timeline tab's column writes. -/
def run_script (data : List Row) (s : Selection) : PdState :=
  script_tab2 (script_filter (init_state data) s)

/-- The filter chain of lines 51-57 is the single filter by the
conjunction `passes`. -/
lemma apply_filters_eq_filter (t : List Row) (s : Selection) :
    apply_filters t s = t.filter (passes s) := by
  simp only [apply_filters]
  rw [ite_filter_eq, ite_filter_eq, ite_filter_eq, ite_filter_eq, ite_filter_eq]
  simp only [List.filter_filter]
  apply List.filter_congr
  intro r _
  simp only [passes]
  cases optMem r.Year s.years <;> cases optMem r.Month_Name s.months <;>
    cases optMem r.Country s.countries <;> cases optMem r.Vessel_Type s.vessels <;>
    cases optMem r.Incident_Type s.incidents <;>
  cases optInRange r.Casualties s.casLo s.casHi <;>
  cases s.years.isEmpty <;> cases s.months.isEmpty <;>
    cases s.countries.isEmpty <;> cases s.vessels.isEmpty <;>
    cases s.incidents.isEmpty <;>
  rfl

/-- A CSV table whose single row has an unparseable date; every other
field is well-formed. -/
def bad_csv : List CsvRow :=
  [{ Date := "not-a-date", Latitude := some 20, Longitude := some 60,
     Country := some "India", Vessel_Type := some "Cargo",
     Incident_Type := some "Collision", Casualties := some 3,
     Cargo_Loss := some "No" }]

/-- C1: the claim says a row with an unparseable `Date` is kept with null
`Year`/`Month`/`Month_Name` and the load completes without raising.  The
code does coerce the bad date to null (first conjunct), but the
`Month_Name` derivation of line 30 then raises on the null month, so
`load_data` aborts instead of completing (second conjunct): the claim is
right about the intent (line 22 parses with `errors="coerce"` precisely
so that bad dates are non-fatal) and the code is wrong. -/
theorem c1_unparseable_date_aborts_load :
    bad_csv.map (fun r => to_datetime r.Date) = [none]
  ∧ load_data bad_csv = Except.error "NaTType does not support strftime" := by
  constructor
  · rfl
  · rfl

/-- C2 counterexample: a casualty count of 1001 is strictly greater than
50, yet its derived `Severity` is null rather than `High`, because the
`pd.cut` bins of line 28 stop at 1000.  This refutes ">50 is High" and
"no casualty count left unclassified". -/
theorem c2_severity_counterexample :
    severity (some 1001) = none ∧ (50 : Int) < 1001 := by
  exact ⟨rfl, by decide⟩

/-- C2 amended: for null-defaulted casualty counts in the non-negative
range the claimed partition holds, except that `High` covers only the
counts in `(50, 1000]`; a count above 1000 is left unclassified (null
`Severity`).  `Severity` is still a deterministic total function of
`Casualties` with null mapped to 0. -/
theorem c2_severity_amended (c : Option Int) (h : 0 ≤ c.getD 0) :
    (severity c = some "Low" ↔ c.getD 0 ≤ 10)
  ∧ (severity c = some "Medium" ↔ 10 < c.getD 0 ∧ c.getD 0 ≤ 50)
  ∧ (severity c = some "High" ↔ 50 < c.getD 0 ∧ c.getD 0 ≤ 1000)
  ∧ (severity c = none ↔ 1000 < c.getD 0)
  ∧ severity c = severity (some (c.getD 0)) := by
  have hsame : severity c = severity (some (c.getD 0)) := by cases c <;> rfl
  refine ⟨?_, ?_, ?_, ?_, hsame⟩ <;>
  · simp only [severity]
    split_ifs with h1 h2 h3 <;> simp_all <;> omega

theorem c2_severity_amended_witness : severity (some 7) = some "Low" :=
  ((c2_severity_amended (some 7) (by decide)).1).mpr (by decide)

/-- C4 counterexample: a null `Cargo_Loss` is mapped by the line-26 dict
`map` to null, not to 0, refuting "equals 0 otherwise, including 0 when
Cargo_Loss is null". -/
theorem c4_flag_counterexample :
    cargo_loss_flag none = none ∧ cargo_loss_flag none ≠ some 0 := by
  exact ⟨rfl, by decide⟩

/-- C4 amended: `Cargo_Loss_Flag` is 1 iff `Cargo_Loss` is "Yes" and 0
iff it is "No"; any other value - null included - yields a null flag,
not 0. -/
theorem c4_flag_amended (c : Option String) :
    (cargo_loss_flag c = some 1 ↔ c = some "Yes")
  ∧ (cargo_loss_flag c = some 0 ↔ c = some "No")
  ∧ (cargo_loss_flag c = none ↔ c ≠ some "Yes" ∧ c ≠ some "No") := by
  rcases c with _ | s
  · simp [cargo_loss_flag]
  · simp only [cargo_loss_flag]
    split_ifs with h1 h2 <;> simp_all

theorem c4_flag_amended_witness : cargo_loss_flag none = none :=
  ((c4_flag_amended none).2.2).mpr (by simp)

/-- C5: the filter pipeline equals one filter by the spec-side predicate:
an empty categorical selection imposes no restriction, a non-empty one
passes exactly the rows whose value is a member of the selection (nulls
never pass), and the five categorical clauses plus the always-active
inclusive casualty range combine by logical AND. -/
theorem c5_filter_semantics (t : List Row) (s : Selection) :
    apply_filters t s = t.filter (passes_spec s) := by
  rw [apply_filters_eq_filter]
  exact List.filter_congr (fun r _ => passes_eq_passes_spec s r)

/-- C8: filtering is idempotent - applying the same selection to the
already-filtered result returns exactly the once-filtered result. -/
theorem c8_filter_idempotent (t : List Row) (s : Selection) :
    apply_filters (apply_filters t s) s = apply_filters t s := by
  simp only [apply_filters_eq_filter, List.filter_filter, Bool.and_self]

/-- C6: on every filtered table the severity distribution has exactly the
three entries High, Medium, Low in that order, each with a non-null count
equal to the number of rows in that bucket (so an absent bucket reports
0, and is neither omitted nor null). -/
theorem c6_severity_distribution (t : List Row) :
    funnel_data t =
      [("High", some (t.filter (fun r => r.Severity == some "High")).length),
       ("Medium", some (t.filter (fun r => r.Severity == some "Medium")).length),
       ("Low", some (t.filter (fun r => r.Severity == some "Low")).length)] := by
  rfl

/-- A plausible loaded row with null `Casualties` (so `Severity` is the
null-defaulted `Low` and the flag comes from the dict map). -/
def null_cas_row : Row :=
  { Date := some (2021, 6, 15), Year := some 2021, Month := some 6,
    Day := some 15, Month_Name := some "Jun", Country := some "India",
    Vessel_Type := some "Cargo", Incident_Type := some "Collision",
    Casualties := none, Cargo_Loss := some "No", Cargo_Loss_Flag := some 0,
    Severity := some "Low", Latitude := some 20, Longitude := some 60 }

/-- A loaded row with 5 casualties. -/
def cas5_row : Row :=
  { Date := some (2021, 7, 1), Year := some 2021, Month := some 7,
    Day := some 1, Month_Name := some "Jul", Country := some "Chile",
    Vessel_Type := some "Tanker", Incident_Type := some "Fire",
    Casualties := some 5, Cargo_Loss := some "No", Cargo_Loss_Flag := some 0,
    Severity := some "Low", Latitude := some (-30), Longitude := some (-72) }

/-- A loaded row with 200 casualties. -/
def cas200_row : Row :=
  { Date := some (2021, 8, 9), Year := some 2021, Month := some 8,
    Day := some 9, Month_Name := some "Aug", Country := some "Ghana",
    Vessel_Type := some "Ferry", Incident_Type := some "Capsizing",
    Casualties := some 200, Cargo_Loss := some "Yes", Cargo_Loss_Flag := some 1,
    Severity := some "High", Latitude := some 5, Longitude := some 0 }

/-- A three-row loaded table whose observed casualty range is [5, 200]. -/
def c3_table : List Row := [null_cas_row, cas5_row, cas200_row]

/-- C3 counterexample: under the sidebar's default selection the row with
null `Casualties` is dropped from the filtered result even though it is
present in the table, and the default range is the fixed literal
`(0, 50)` of line 49, not the observed range `[5, 200]` of this table -
refuting both "included under the default selection" and "the default
spans the full observed casualty range". -/
theorem c3_range_counterexample :
    null_cas_row ∈ c3_table
  ∧ null_cas_row ∉ apply_filters c3_table default_selection
  ∧ observed_cas_min c3_table = some 5
  ∧ observed_cas_max c3_table = some 200
  ∧ (default_selection.casLo, default_selection.casHi) = ((0 : Int), (50 : Int))
  ∧ ((0 : Int), (50 : Int)) ≠ ((5 : Int), (200 : Int)) := by
  refine ⟨by decide, by decide, by decide, by decide, by decide, by decide⟩

/-- C3 amended: the casualty_range filter is an inclusive `[low, high]`
bound that is always applied - every row of any filtered result satisfies
it - and a row with null `Casualties` fails every range, the default one
included; the default selection's range is the fixed `(0, 50)`, not the
observed casualty range. -/
theorem c3_range_amended (t : List Row) (s : Selection) :
    (apply_filters t s).all (fun r => optInRange r.Casualties s.casLo s.casHi) = true
  ∧ optInRange none s.casLo s.casHi = false
  ∧ default_selection.casLo = 0 ∧ default_selection.casHi = 50 := by
  refine ⟨?_, rfl, rfl, rfl⟩
  simp only [apply_filters_eq_filter, List.all_eq_true]
  intro r hr
  have hp := (List.mem_filter.mp hr).2
  simp only [passes, Bool.and_eq_true] at hp
  exact hp.2

/-- C7: each of the six aggregations - location listing, temporal
series, flow counts, top-country summary, severity distribution and the
two monthly totals - is a total function that returns the empty or
zero-valued structure on the empty filtered table (all the pandas
operations involved are total on empty input, so nothing raises). -/
theorem c7_aggregations_total_on_empty :
    location_listing [] = []
  ∧ temporal_series [] = []
  ∧ sankey_data [] = ([], [], [])
  ∧ top_countries [] = []
  ∧ radar_data [] = []
  ∧ funnel_data [] = [("High", some 0), ("Medium", some 0), ("Low", some 0)]
  ∧ month_count [] = month_order.map (fun m => (m, 0))
  ∧ month_casualties [] = month_order.map (fun m => (m, 0)) := by
  exact ⟨rfl, rfl, rfl, rfl, rfl, rfl, rfl, rfl⟩

lemma getD_append_lt {α : Type} (l l2 : List α) (d : α) (i : Nat) (h : i < l.length) :
    (l ++ l2).getD i d = l.getD i d := by
  simp [List.getD, List.getElem?_append_left h]

lemma getD_concat_length {α : Type} (l : List α) (a d : α) :
    (l ++ [a]).getD l.length d = a := by
  simp [List.getD, List.getElem?_append_right (Nat.le_refl l.length)]

lemma getD_set_ne {α : Type} (l : List α) (i j : Nat) (a d : α) (h : i ≠ j) :
    (l.set i a).getD j d = l.getD j d := by
  simp [List.getD, List.getElem?_set_ne h]

lemma getD_set_self {α : Type} (l : List α) (i : Nat) (a d : α) (h : i < l.length) :
    (l.set i a).getD i d = a := by
  simp [List.getD, List.getElem?_set_self h]

/-- The invariant carried through the script: `data` points at heap slot
0, that slot still holds the loaded table, `filtered` points at a live
slot distinct from slot 0, and that slot holds the current filtered
rows. -/
def GoodState (data flt : List Row) (st : PdState) : Prop :=
  st.dataRef = 0
  ∧ frameAt st 0 = data
  ∧ frameAt st st.filteredRef = flt
  ∧ st.filteredRef < st.frames.length
  ∧ 0 < st.filteredRef

lemma goodState_init_copy (data : List Row) :
    GoodState data data (copyToFiltered (init_state data)) := by
  refine ⟨rfl, rfl, rfl, by simp [copyToFiltered, init_state], by simp [copyToFiltered, init_state]⟩

lemma goodState_maskFiltered {data flt : List Row} {st : PdState}
    (h : GoodState data flt st) (p : Row → Bool) :
    GoodState data (flt.filter p) (maskFiltered st p) := by
  obtain ⟨h0, hd, hf, hlt, hpos⟩ := h
  refine ⟨h0, ?_, ?_, ?_, ?_⟩
  · show (st.frames ++ [_]).getD 0 [] = data
    rw [getD_append_lt]
    · exact hd
    · omega
  · show (st.frames ++ [(frameAt st st.filteredRef).filter p]).getD st.frames.length [] = flt.filter p
    rw [getD_concat_length, hf]
  · simp [maskFiltered]
  · simp only [maskFiltered]
    omega

lemma goodState_condMask {data flt : List Row} {st : PdState}
    (h : GoodState data flt st) (b : Bool) (p : Row → Bool) :
    GoodState data (if b then flt.filter p else flt) (condMaskFiltered st b p) := by
  cases b
  · simpa [condMaskFiltered] using h
  · simpa [condMaskFiltered] using goodState_maskFiltered h p

lemma goodState_setCol {data flt : List Row} {st : PdState}
    (h : GoodState data flt st) (f : Row → Row) :
    GoodState data (flt.map f) (setColFiltered st f) := by
  obtain ⟨h0, hd, hf, hlt, hpos⟩ := h
  refine ⟨h0, ?_, ?_, ?_, hpos⟩
  · show (st.frames.set st.filteredRef _).getD 0 [] = data
    rw [getD_set_ne]
    · exact hd
    · omega
  · show (st.frames.set st.filteredRef ((frameAt st st.filteredRef).map f)).getD st.filteredRef [] = flt.map f
    rw [getD_set_self _ _ _ _ hlt, hf]
  · simpa [setColFiltered] using hlt

lemma ite_not_swap {α : Type} (b : Bool) (x y : α) :
    (if !b then x else y) = if b then y else x := by
  cases b <;> rfl

lemma script_filter_good (data : List Row) (s : Selection) :
    GoodState data (apply_filters data s) (script_filter (init_state data) s) := by
  have g1 := goodState_init_copy data
  have g2 := goodState_condMask g1 (!s.years.isEmpty) (fun r => optMem r.Year s.years)
  have g3 := goodState_condMask g2 (!s.months.isEmpty) (fun r => optMem r.Month_Name s.months)
  have g4 := goodState_condMask g3 (!s.countries.isEmpty) (fun r => optMem r.Country s.countries)
  have g5 := goodState_condMask g4 (!s.vessels.isEmpty) (fun r => optMem r.Vessel_Type s.vessels)
  have g6 := goodState_condMask g5 (!s.incidents.isEmpty) (fun r => optMem r.Incident_Type s.incidents)
  have g7 := goodState_maskFiltered g6 (fun r => optInRange r.Casualties s.casLo s.casHi)
  simp only [ite_not_swap] at g7
  exact g7

lemma goodState_tab2 {data flt : List Row} {st : PdState}
    (h : GoodState data flt st) :
    GoodState data
      (if flt = [] then flt else (flt.map month_cat_assign).map year_month_assign)
      (script_tab2 st) := by
  have hf := h.2.2.1
  simp only [script_tab2, hf]
  split_ifs
  · exact h
  · exact goodState_setCol (goodState_setCol h month_cat_assign) year_month_assign

/-- C9: one full run of the script leaves the loaded table unchanged -
the frame `data` points to after the run still holds exactly the loaded
rows, the filter pipeline leaves `filtered` pointing at a distinct, newly
allocated frame holding `apply_filters data s`, the timeline tab's
in-place column writes touch only that frame, and the filtered rows are
an order-preserving sublist of the loaded rows. -/
theorem c9_no_mutation (data : List Row) (s : Selection) :
    frameAt (run_script data s) ((run_script data s).dataRef) = data
  ∧ (run_script data s).filteredRef ≠ (run_script data s).dataRef
  ∧ frameAt (script_filter (init_state data) s)
      ((script_filter (init_state data) s).filteredRef) = apply_filters data s
  ∧ (apply_filters data s).Sublist data := by
  have hF := script_filter_good data s
  have hT := goodState_tab2 hF
  obtain ⟨h0T, hdT, hfT, hltT, hposT⟩ := hT
  refine ⟨?_, ?_, hF.2.2.1, ?_⟩
  · show frameAt (script_tab2 (script_filter (init_state data) s))
      ((script_tab2 (script_filter (init_state data) s)).dataRef) = data
    rw [h0T]
    exact hdT
  · show (script_tab2 (script_filter (init_state data) s)).filteredRef ≠
      (script_tab2 (script_filter (init_state data) s)).dataRef
    omega
  · rw [apply_filters_eq_filter]
    exact List.filter_sublist _

lemma filter_absorb {α : Type} (p q : α → Bool) (l : List α)
    (h : ∀ a, p a = true → q a = true) :
    (l.filter q).filter p = l.filter p := by
  rw [List.filter_filter]
  apply List.filter_congr
  intro a _
  cases hp : p a
  · simp
  · simp [h a hp]

lemma filterMap_country_dropNull (t : List Row) :
    (t.filter (fun r => r.Country.isSome)).filterMap Row.Country = t.filterMap Row.Country := by
  induction t with
  | nil => rfl
  | cons r t ih =>
    cases hc : r.Country <;> simp [List.filter_cons, List.filterMap_cons, hc, ih]

/-- C10: the radar tab's top-country ranking and per-country summary are
unchanged when the rows with null `Country` are deleted first - such rows
are never counted in the ranking, never retained, and contribute nothing
to any retained country's sums or incident count. -/
theorem c10_null_country_ignored (t : List Row) :
    top_countries (t.filter (fun r => r.Country.isSome)) = top_countries t
  ∧ radar_data (t.filter (fun r => r.Country.isSome)) = radar_data t := by
  have hcount : ∀ c : String,
      (t.filter (fun r => r.Country.isSome)).filter (fun r => r.Country == some c)
        = t.filter (fun r => r.Country == some c) := by
    intro c
    apply filter_absorb
    intro r hr
    cases hc : r.Country <;> simp [hc] at hr ⊢
  have hcvc : country_value_counts (t.filter (fun r => r.Country.isSome))
      = country_value_counts t := by
    unfold country_value_counts
    rw [filterMap_country_dropNull]
    simp only [hcount]
  have htc : top_countries (t.filter (fun r => r.Country.isSome)) = top_countries t := by
    unfold top_countries
    rw [hcvc]
  have hsel : (t.filter (fun r => r.Country.isSome)).filter
        (fun r => optMem r.Country (top_countries t))
      = t.filter (fun r => optMem r.Country (top_countries t)) := by
    apply filter_absorb
    intro r hr
    cases hc : r.Country <;> simp [optMem, hc] at hr ⊢
  refine ⟨htc, ?_⟩
  unfold radar_data
  rw [htc, hsel]

end Nautilus
